import Mathlib

/-!
Verification development for the PharmaSoft e-commerce repository
(`src/script.js`).  The file embeds the browser-side cart/session module
and the Express REST handlers as pure Lean functions:

* JS numbers that hold prices and money amounts are modelled as `Rat`;
  `Number.prototype.toFixed(2)` followed by `parseFloat` is modelled as
  rounding to the nearest multiple of `1/100` (ties upward) by `round2`.
* JS strings are Lean `String`s; `String.prototype.trim` and the
  whitespace-stripping used before the phone/pincode regular expressions
  are modelled structurally over the character list so that they compute.
* Each REST handler is a function from the persisted user document
  (`UserState`) and the request body to the next persisted document plus
  the response.  Handlers run one at a time (one request, one
  load-mutate-save round trip), so sequences of requests are modelled by
  folding handler applications over an operation list.
-/

/-- Rounding of a rational to two decimal places, nearest with ties upward:
the model of JavaScript `parseFloat(x.toFixed(2))` used by the server's
`calculateCartTotal` helper. -/
def round2 (x : Rat) : Rat := (⌊x * 100 + 1/2⌋ : Int) / 100

theorem round2_eq (x : Rat) (n : Int) (h1 : (n : Rat) ≤ x * 100 + 1/2)
    (h2 : x * 100 + 1/2 < n + 1) : round2 x = (n : Rat) / 100 := by
  rw [round2, show ⌊x * 100 + 1/2⌋ = n from Int.floor_eq_iff.mpr ⟨h1, h2⟩]

/-- Structural model of JavaScript `String.prototype.trim`. -/
def jsTrim (s : String) : String :=
  String.mk (((s.data.dropWhile Char.isWhitespace).reverse.dropWhile
    Char.isWhitespace).reverse)

/-- Model of `str.replace(/\s/g, '')`: drop every whitespace character. -/
def stripSpaces (s : String) : String :=
  String.mk (s.data.filter fun c => ¬ c.isWhitespace)

/-- Model of the regular-expression test `/^[0-9]{n}$/.test s`. -/
def matchesDigits (s : String) (n : Nat) : Bool :=
  s.data.length = n && s.data.all Char.isDigit

/-- One cart entry, as stored in the user document's `cart` array and in the
client's in-memory `cart` (fields `name`, `price`, `quantity`, `image`).
The uniqueness key is `name`. -/
structure CartItem where
  name : String
  price : Rat
  quantity : Int
  image : String
deriving Repr, DecidableEq, Inhabited

/-- The four cart totals `{subtotal, deliveryFee, tax, total}` returned by
both cart-total calculators. -/
structure CartTotals where
  subtotal : Rat
  deliveryFee : Rat
  tax : Rat
  total : Rat
deriving Repr, DecidableEq

/-- The `reduce((sum, item) => sum + item.price * item.quantity, 0)`
subtotal shared by both cart-total calculators. -/
def cartSubtotal (cart : List CartItem) : Rat :=
  cart.foldl (fun sum item => sum + item.price * (item.quantity : Rat)) 0

/-- Server helper `calculateCartTotal` (script.js:1142-1154): computes
subtotal, delivery fee, tax and total, and returns each passed through
`parseFloat(v.toFixed(2))`. -/
def calculateCartTotal (cartItems : List CartItem) : CartTotals :=
  let subtotal := cartSubtotal cartItems
  let deliveryFee : Rat := if subtotal > 500 then 0 else 50
  let tax := subtotal * (5/100)
  let total := subtotal + deliveryFee + tax
  { subtotal := round2 subtotal
    deliveryFee := round2 deliveryFee
    tax := round2 tax
    total := round2 total }

/-- Client function `calculateCartTotal` (script.js:255-262): the same four
values, returned without any rounding. -/
def calculateCartTotalClient (cart : List CartItem) : CartTotals :=
  let subtotal := cartSubtotal cart
  let deliveryFee : Rat := if subtotal > 500 then 0 else 50
  let tax := subtotal * (5/100)
  let total := subtotal + deliveryFee + tax
  { subtotal := subtotal, deliveryFee := deliveryFee, tax := tax, total := total }

/-- Cart-total formula written from the specification's words (section 4.1):
subtotal = Σ price×quantity, deliveryFee = 0 if subtotal > 500 else 50,
tax = 0.05 × subtotal, total = subtotal + deliveryFee + tax, all four values
rounded to 2 decimals at the boundary. -/
def cartTotalSpecFormula (cart : List CartItem) : CartTotals :=
  let s := cart.foldl (fun acc item => acc + item.price * (item.quantity : Rat)) 0
  { subtotal := round2 s
    deliveryFee := round2 (if s > 500 then (0 : Rat) else 50)
    tax := round2 ((5/100) * s)
    total := round2 (s + (if s > 500 then (0 : Rat) else 50) + (5/100) * s) }

/-- One address in the user document's `addresses` array. -/
structure Address where
  name : String
  phone : String
  addrLine : String
  city : String
  state : String
  pincode : String
  isDefault : Bool
deriving Repr, DecidableEq, Inhabited

/-- Body of `POST /api/addresses` (and of the client's `addAddress` input):
the six text fields plus `isDefault` (absent models as `false`, matching
`isDefault || false`). -/
structure AddressBody where
  name : String
  phone : String
  addrLine : String
  city : String
  state : String
  pincode : String
  isDefault : Bool
deriving Repr, DecidableEq, Inhabited

/-- Body of `PUT /api/addresses/:id`: any subset of the address fields may be
present (`none` models an absent key, so `Object.assign` leaves the stored
value). -/
structure AddressUpdates where
  name : Option String := none
  phone : Option String := none
  addrLine : Option String := none
  city : Option String := none
  state : Option String := none
  pincode : Option String := none
  isDefault : Option Bool := none
deriving Repr, DecidableEq, Inhabited

/-- The `req.user.addresses.forEach(addr => addr.isDefault = false)` loop. -/
def clearDefaults (addrs : List Address) : List Address :=
  addrs.map fun a => { a with isDefault := false }

/-- The missing-field test `!name || !phone || !address || !city || !state ||
!pincode` of the `POST /api/addresses` handler (empty string is falsy). -/
def addressBodyMissing (b : AddressBody) : Bool :=
  b.name = "" || b.phone = "" || b.addrLine = "" || b.city = "" ||
    b.state = "" || b.pincode = ""

/-- Address list produced by a validated `POST /api/addresses`
(script.js:1451-1465): clear every `isDefault` flag when the new address is
default or the list is empty, then push the trimmed new address. -/
def addressesAfterPost (addrs : List Address) (b : AddressBody) : List Address :=
  let base := if b.isDefault || addrs.isEmpty then clearDefaults addrs else addrs
  base ++ [{ name := jsTrim b.name, phone := jsTrim b.phone,
             addrLine := jsTrim b.addrLine, city := jsTrim b.city,
             state := jsTrim b.state, pincode := jsTrim b.pincode,
             isDefault := b.isDefault || addrs.isEmpty }]

/-- The `Object.assign(req.user.addresses[addressIndex], updates)` merge. -/
def applyAddressUpdates (a : Address) (u : AddressUpdates) : Address :=
  { name := u.name.getD a.name
    phone := u.phone.getD a.phone
    addrLine := u.addrLine.getD a.addrLine
    city := u.city.getD a.city
    state := u.state.getD a.state
    pincode := u.pincode.getD a.pincode
    isDefault := u.isDefault.getD a.isDefault }

/-- Address list produced by `PUT /api/addresses/:id` at a valid index
(script.js:1488-1493): when `updates.isDefault` is truthy clear every flag,
then merge the updates into the address at the index. -/
def addressesAfterPut (addrs : List Address) (id : Nat) (u : AddressUpdates) :
    List Address :=
  let base := if u.isDefault = some true then clearDefaults addrs else addrs
  base.set id (applyAddressUpdates (base.getD id default) u)

/-- One stored order inside the user document's `orders` array. -/
structure Order where
  orderId : String
  items : List CartItem
  total : Rat
  deliveryAddress : Option Address
  paymentMethod : String
  paymentId : Option String
  paymentStatus : String
  status : String
  createdAt : Nat
deriving Repr, DecidableEq

/-- Body of `POST /api/orders`: `paymentMethod`, `paymentId` and
`deliveryAddress` may each be absent. -/
structure OrderBody where
  paymentMethod : Option String := none
  paymentId : Option String := none
  deliveryAddress : Option Address := none
deriving Repr, DecidableEq

/-- The persisted user document: the `cart`, `orders` and `addresses` arrays
that the REST handlers mutate between a `findById` load and a `save`. -/
structure UserState where
  cart : List CartItem
  orders : List Order
  addresses : List Address
deriving Repr, DecidableEq

/-- A freshly registered user: `cart: [], orders: [], addresses: []`. -/
def initialUser : UserState := ⟨[], [], []⟩

/-- Upsert step of `POST /api/cart/add`: increment the quantity of the first
item with the given name, or push a new item with quantity 1. -/
def addToCartList : List CartItem → String → Rat → String → List CartItem
  | [], name, price, image => [{ name := name, price := price, image := image, quantity := 1 }]
  | item :: rest, name, price, image =>
    if item.name = name then { item with quantity := item.quantity + 1 } :: rest
    else item :: addToCartList rest name price image

/-- The `find`-then-assign step of `PUT /api/cart/update`: set the quantity
of the first item with the given name, if any. -/
def setQuantityFirst : List CartItem → String → Int → List CartItem
  | [], _, _ => []
  | item :: rest, name, q =>
    if item.name = name then { item with quantity := q } :: rest
    else item :: setQuantityFirst rest name q

/-- Cart produced by `PUT /api/cart/update` (script.js:1334-1341):
quantity 0 removes every item with the name, any other quantity is stored
verbatim on the first matching item. -/
def cartAfterUpdate (cart : List CartItem) (name : String) (quantity : Int) :
    List CartItem :=
  if quantity = 0 then cart.filter (fun item => item.name ≠ name)
  else setQuantityFirst cart name quantity

/-- Handler `POST /api/cart/add` (script.js:1304-1328): reject a missing name
or falsy price with 400, otherwise upsert and respond with the cart and its
computed totals. -/
def postCartAdd (s : UserState) (name : String) (price : Rat) (image : String) :
    Except (Nat × String) (UserState × List CartItem × CartTotals) :=
  if name = "" ∨ price = 0 then .error (400, "Invalid product data")
  else
    let newCart := addToCartList s.cart name price image
    .ok ({ s with cart := newCart }, newCart, calculateCartTotal newCart)

/-- Handler `PUT /api/cart/update` (script.js:1330-1351): never fails;
responds with the cart and its computed totals. -/
def putCartUpdate (s : UserState) (name : String) (quantity : Int) :
    UserState × List CartItem × CartTotals :=
  let newCart := cartAfterUpdate s.cart name quantity
  ({ s with cart := newCart }, newCart, calculateCartTotal newCart)

/-- Handler `DELETE /api/cart/remove` (script.js:1353-1365). -/
def deleteCartRemove (s : UserState) (name : String) :
    UserState × List CartItem × CartTotals :=
  let newCart := s.cart.filter (fun item => item.name ≠ name)
  ({ s with cart := newCart }, newCart, calculateCartTotal newCart)

/-- Handler `DELETE /api/cart/clear` (script.js:1367-1380): empties the cart
and responds with the hard-coded totals `{0, 0, 0, 0}`. -/
def deleteCartClear (s : UserState) : UserState × List CartItem × CartTotals :=
  ({ s with cart := [] }, [], { subtotal := 0, deliveryFee := 0, tax := 0, total := 0 })

/-- Handler `POST /api/orders` (script.js:1385-1417): 400 when the cart is
empty; otherwise build the order from a copy of the cart, the computed total,
the supplied or default delivery address, append it to `orders`, and empty
the cart in the same save. -/
def postOrders (s : UserState) (b : OrderBody) (orderId : String) (now : Nat) :
    Except (Nat × String) (UserState × Order) :=
  if s.cart.isEmpty then .error (400, "Cart is empty")
  else
    let calculations := calculateCartTotal s.cart
    let order : Order :=
      { orderId := orderId
        items := s.cart
        total := calculations.total
        deliveryAddress :=
          match b.deliveryAddress with
          | some a => some a
          | none => s.addresses.find? (fun a => a.isDefault)
        paymentMethod := b.paymentMethod.getD "cod"
        paymentId := b.paymentId
        paymentStatus := if b.paymentMethod = some "cod" then "pending" else "completed"
        status := "confirmed"
        createdAt := now }
    .ok ({ s with orders := s.orders ++ [order], cart := [] }, order)

/-- Handler `POST /api/addresses` (script.js:1443-1473): 400 when a required
field is missing, otherwise commit `addressesAfterPost`. -/
def postAddresses (s : UserState) (b : AddressBody) :
    Except (Nat × String) (UserState × Address) :=
  if addressBodyMissing b then .error (400, "All address fields required")
  else
    let newAddrs := addressesAfterPost s.addresses b
    .ok ({ s with addresses := newAddrs }, (newAddrs.getLast?).getD default)

/-- Handler `PUT /api/addresses/:id` (script.js:1475-1500): 404 when the index
does not resolve, otherwise commit `addressesAfterPut`. -/
def putAddressId (s : UserState) (id : Nat) (u : AddressUpdates) :
    Except (Nat × String) (UserState × Address) :=
  if id < s.addresses.length then
    let newAddrs := addressesAfterPut s.addresses id u
    .ok ({ s with addresses := newAddrs }, newAddrs.getD id default)
  else .error (404, "Address not found")

/-- Handler `DELETE /api/addresses/:id` (script.js:1502-1516): drop the
address at the index. -/
def deleteAddressId (s : UserState) (id : Nat) : UserState :=
  { s with addresses := (s.addresses.enum.filter (fun p => p.1 ≠ id)).map (·.2) }

/-- One mutating REST request against a user document.  `orderCreate` carries
the generated order id and timestamp as parameters. -/
inductive ServerOp where
  | cartAdd (name : String) (price : Rat) (image : String)
  | cartUpdate (name : String) (quantity : Int)
  | cartRemove (name : String)
  | cartClear
  | orderCreate (b : OrderBody) (orderId : String) (now : Nat)
  | addressAdd (b : AddressBody)
  | addressUpdate (id : Nat) (u : AddressUpdates)
  | addressDelete (id : Nat)

/-- The persisted document after one request: a handler error (400/404 early
return) leaves the document unsaved. -/
def applyServerOp (s : UserState) : ServerOp → UserState
  | .cartAdd name price image =>
    match postCartAdd s name price image with
    | .ok (s', _) => s'
    | .error _ => s
  | .cartUpdate name q => (putCartUpdate s name q).1
  | .cartRemove name => (deleteCartRemove s name).1
  | .cartClear => (deleteCartClear s).1
  | .orderCreate b oid now =>
    match postOrders s b oid now with
    | .ok (s', _) => s'
    | .error _ => s
  | .addressAdd b =>
    match postAddresses s b with
    | .ok (s', _) => s'
    | .error _ => s
  | .addressUpdate id u =>
    match putAddressId s id u with
    | .ok (s', _) => s'
    | .error _ => s
  | .addressDelete id => deleteAddressId s id

/-- An address add (`POST /api/addresses`) or update
(`PUT /api/addresses/:id`) as seen by one user's address list. -/
inductive AddrOp where
  | add (b : AddressBody)
  | update (id : Nat) (u : AddressUpdates)

/-- Effect of one address operation on the address list, with the handlers'
guards: a missing required field or an unresolved index leaves the list
unchanged (the handler returns 400/404 before saving). -/
def applyAddrOp (addrs : List Address) : AddrOp → List Address
  | .add b => if addressBodyMissing b then addrs else addressesAfterPost addrs b
  | .update id u => if id < addrs.length then addressesAfterPut addrs id u else addrs

/-- Address list after a sequence of adds/updates starting from the empty
list of a fresh user. -/
def applyAddrOps (ops : List AddrOp) : List Address :=
  ops.foldl applyAddrOp []

/-- Number of addresses whose `isDefault` flag is set. -/
def countDefaults (addrs : List Address) : Nat :=
  addrs.countP (fun a => a.isDefault)

/-- Quantities that reach `PUT /api/cart/update` from the repository's own
client: the client sends `Math.max(1, quantity)`, and 0 only means removal. -/
def opQuantityOK : ServerOp → Bool
  | .cartUpdate _ q => q == 0 || decide (1 ≤ q)
  | _ => true

/-- Browser-side session state: the stored token and user, the in-memory
`cart` variable, and the persistent cart cache. -/
structure ClientState where
  token : Option String
  user : Option String
  cart : List CartItem
  cartCache : Option (List CartItem)
deriving Repr, DecidableEq

/-- The `auth.logout()` routine (script.js:51-57): remove the stored token,
user and cart cache. -/
def authLogout (s : ClientState) : ClientState :=
  { s with token := none, user := none, cartCache := none }

/-- The `auth.setToken` write. -/
def authSetToken (s : ClientState) (t : String) : ClientState :=
  { s with token := some t }

/-- The `auth.setUser` write. -/
def authSetUser (s : ClientState) (u : String) : ClientState :=
  { s with user := some u }

/-- `loadCart` (script.js:124-143): when a token is stored, take the cart
returned by `GET /api/cart` and cache it; otherwise fall back to the cached
guest cart. -/
def loadCart (s : ClientState) (serverCart : List CartItem) : ClientState :=
  if s.token.isSome then { s with cart := serverCart, cartCache := some serverCart }
  else { s with cart := s.cartCache.getD [] }

/-- `handleLogin` (script.js:628-653) after a successful `POST /auth/login`
whose response carries `token` and `user`, followed by the awaited
`loadCart` whose `GET /api/cart` returned `serverCart`. -/
def handleLogin (s : ClientState) (token userName : String)
    (serverCart : List CartItem) : ClientState :=
  loadCart (authSetUser (authSetToken s token) userName) serverCart

/-- Guest branch of `updateCartItemQuantity` (script.js:218-229): clamp the
requested quantity with `Math.max(1, quantity)` and set it on the first
matching item. -/
def updateCartItemQuantityGuest (cart : List CartItem) (name : String)
    (q : Int) : List CartItem :=
  setQuantityFirst cart name (max 1 q)

/-- Authenticated branch of `updateCartItemQuantity` (script.js:231-242): the
server stores the cart produced by `PUT /api/cart/update` for the clamped
quantity `Math.max(1, quantity)`. -/
def updateCartItemQuantityAuth (cart : List CartItem) (name : String)
    (q : Int) : List CartItem :=
  cartAfterUpdate cart name (max 1 q)

/-- Client `addAddress` validation and payload (script.js:347-397): `none`
models returning `null` before any request is issued; `some body` is the
JSON body sent to `POST /api/addresses`. -/
def addAddressClientPayload (d : AddressBody) : Option AddressBody :=
  if jsTrim d.name = "" ∨ jsTrim d.phone = "" ∨ jsTrim d.addrLine = "" ∨
      jsTrim d.city = "" ∨ jsTrim d.state = "" ∨ jsTrim d.pincode = "" then none
  else if ¬ matchesDigits (stripSpaces d.phone) 10 then none
  else if ¬ matchesDigits (stripSpaces d.pincode) 6 then none
  else some { name := jsTrim d.name, phone := jsTrim d.phone,
              addrLine := jsTrim d.addrLine, city := jsTrim d.city,
              state := jsTrim d.state, pincode := jsTrim d.pincode,
              isDefault := d.isDefault }

/-- Outcome of `apiCall` after a JSON response has been parsed. -/
inductive ApiOutcome where
  | success
  | loggedOut
  | thrown (msg : String)
deriving Repr, DecidableEq

/-- Status handling of `apiCall` (script.js:92-99): `response.ok` passes the
data through, 401/403 forces `auth.logout()`, any other failure status
throws. -/
def apiCallHandleResponse (s : ClientState) (status : Nat) (errMsg : String) :
    ClientState × ApiOutcome :=
  if 200 ≤ status ∧ status ≤ 299 then (s, .success)
  else if status = 401 ∨ status = 403 then (authLogout s, .loggedOut)
  else (s, .thrown errMsg)

/-- Result of the `authenticateToken` middleware. -/
inductive AuthResult where
  | denied (status : Nat) (msg : String)
  | authorized (userId : String)
deriving Repr, DecidableEq

/-- Middleware `authenticateToken` (script.js:1116-1137), parameterised by
the JWT verifier and the user lookup: no bearer token is 401, a token that
fails verification is 403, a verified token whose user is gone is 401. -/
def authenticateToken (verify : String → Option String)
    (userExists : String → Bool) : Option String → AuthResult
  | none => .denied 401 "Authentication required"
  | some t =>
    match verify t with
    | none => .denied 403 "Invalid or expired token"
    | some uid =>
      if userExists uid then .authorized uid else .denied 401 "User not found"

/-- C1, counterexample: the client `calculateCartTotal` does not round.  For
the one-item cart with price 1/8 (= 0.125) it returns tax 1/160 (= 0.00625),
while 0.05 × subtotal rounded to 2 decimals is 1/100 (= 0.01), so the
returned tax is not the rounded value the claim describes. -/
theorem clientCartTotal_not_rounded :
    (calculateCartTotalClient [⟨"aspirin", 1/8, 1, "img"⟩]).tax = 1/160 ∧
    round2 ((5/100) * cartSubtotal [⟨"aspirin", 1/8, 1, "img"⟩]) = 1/100 ∧
    ((1 : Rat)/160) ≠ 1/100 := by
  have hs : cartSubtotal [⟨"aspirin", 1/8, 1, "img"⟩] = 1/8 := by
    simp [cartSubtotal]
  refine ⟨?_, ?_, by norm_num⟩
  · show cartSubtotal [⟨"aspirin", 1/8, 1, "img"⟩] * (5/100) = 1/160
    rw [hs]
    norm_num
  · rw [hs, round2_eq _ 1 (by norm_num) (by norm_num)]
    norm_num

/-- C1, amended: the server helper `calculateCartTotal` returns exactly the
specification's formula — subtotal = Σ price×quantity, deliveryFee = 0 if
subtotal > 500 else 50 (so 50 at subtotal 500 and 0 at 501), tax = 0.05 ×
subtotal, total = their sum, each rounded to 2 decimals — and each of its
four fields is the 2-decimal rounding of the corresponding unrounded field
of the client `calculateCartTotal`. -/
theorem cartTotal_formula_and_rounding :
    (∀ cart, calculateCartTotal cart = cartTotalSpecFormula cart) ∧
    (∀ cart,
      (calculateCartTotal cart).subtotal = round2 (calculateCartTotalClient cart).subtotal ∧
      (calculateCartTotal cart).deliveryFee = round2 (calculateCartTotalClient cart).deliveryFee ∧
      (calculateCartTotal cart).tax = round2 (calculateCartTotalClient cart).tax ∧
      (calculateCartTotal cart).total = round2 (calculateCartTotalClient cart).total) ∧
    (calculateCartTotal [⟨"m", 500, 1, ""⟩]).deliveryFee = 50 ∧
    (calculateCartTotal [⟨"m", 501, 1, ""⟩]).deliveryFee = 0 := by
  have h500 : cartSubtotal [⟨"m", 500, 1, ""⟩] = 500 := by
    simp [cartSubtotal]
  have h501 : cartSubtotal [⟨"m", 501, 1, ""⟩] = 501 := by
    simp [cartSubtotal]
  refine ⟨fun cart => ?_, fun cart => ⟨rfl, rfl, rfl, rfl⟩, ?_, ?_⟩
  · show (calculateCartTotal cart) = cartTotalSpecFormula cart
    unfold calculateCartTotal cartTotalSpecFormula
    have h : cart.foldl (fun acc item => acc + item.price * (item.quantity : Rat)) 0
        = cartSubtotal cart := rfl
    rw [h]
    have htax : cartSubtotal cart * (5/100) = (5/100) * cartSubtotal cart := by
      ring
    dsimp only
    rw [htax]
  · show round2 (if cartSubtotal [⟨"m", 500, 1, ""⟩] > 500 then (0 : Rat) else 50) = 50
    rw [h500]
    norm_num
    rw [round2_eq 50 5000 (by norm_num) (by norm_num)]
    norm_num
  · show round2 (if cartSubtotal [⟨"m", 501, 1, ""⟩] > 500 then (0 : Rat) else 50) = 0
    rw [h501]
    norm_num
    rw [round2_eq 0 0 (by norm_num) (by norm_num)]
    norm_num

/-- C8: `DELETE /api/cart/clear` empties the user's cart, touches neither
orders nor addresses, and responds with the empty cart and the totals
`{subtotal: 0, deliveryFee: 0, tax: 0, total: 0}`. -/
theorem cart_clear_empties_and_returns_zero_totals (s : UserState) :
    (deleteCartClear s).1.cart = [] ∧
    (deleteCartClear s).2 =
      ([], { subtotal := 0, deliveryFee := 0, tax := 0, total := 0 }) ∧
    (deleteCartClear s).1.orders = s.orders ∧
    (deleteCartClear s).1.addresses = s.addresses :=
  ⟨rfl, rfl, rfl, rfl⟩

theorem countDefaults_clearDefaults (addrs : List Address) :
    countDefaults (clearDefaults addrs) = 0 := by
  unfold countDefaults clearDefaults
  rw [List.countP_map]
  exact List.countP_eq_zero.mpr (fun a _ => by simp [Function.comp])

theorem mem_clearDefaults_isDefault {addrs : List Address} {a : Address}
    (h : a ∈ clearDefaults addrs) : a.isDefault = false := by
  rcases List.mem_map.mp h with ⟨b, _, rfl⟩
  rfl

theorem countDefaults_set_le_one (l : List Address) (i : Nat) (a : Address)
    (h0 : countDefaults l = 0) : countDefaults (l.set i a) ≤ 1 := by
  by_cases hi : i < l.length
  · unfold countDefaults at *
    rw [List.countP_set _ _ _ _ hi, h0]
    split <;> split <;> omega
  · rw [List.set_eq_of_length_le (Nat.le_of_not_lt hi)]
    omega

theorem countDefaults_set_le (l : List Address) (i : Nat) (a : Address)
    (h : countDefaults l ≤ 1)
    (ha : a.isDefault = true → (l.getD i default).isDefault = true) :
    countDefaults (l.set i a) ≤ 1 := by
  by_cases hi : i < l.length
  · unfold countDefaults at *
    rw [List.countP_set _ _ _ _ hi]
    have hgetD : l.getD i default = l[i] := by
      rw [List.getD_eq_getElem?_getD, List.getElem?_eq_getElem hi]
      rfl
    rw [hgetD] at ha
    by_cases haf : a.isDefault = true
    · have hold : l[i].isDefault = true := ha haf
      have hpos : 0 < List.countP (fun x => x.isDefault) l :=
        List.countP_pos_iff.mpr ⟨l[i], List.getElem_mem hi, by simp [hold]⟩
      simp only [haf, hold, if_true]
      omega
    · have haf2 : a.isDefault = false := by
        simpa using haf
      simp only [haf2]
      split <;> simp <;> omega
  · rw [List.set_eq_of_length_le (Nat.le_of_not_lt hi)]
    exact h

theorem countDefaults_afterPost_le (addrs : List Address) (b : AddressBody)
    (h : countDefaults addrs ≤ 1) :
    countDefaults (addressesAfterPost addrs b) ≤ 1 := by
  unfold addressesAfterPost
  by_cases hc : (b.isDefault || addrs.isEmpty) = true
  · rw [if_pos hc]
    unfold countDefaults
    rw [List.countP_append]
    have h0 := countDefaults_clearDefaults addrs
    unfold countDefaults at h0
    rw [h0]
    simp only [List.countP_cons, List.countP_nil, Nat.zero_add]
    split <;> omega
  · rw [if_neg hc]
    have hflag : (b.isDefault || addrs.isEmpty) = false := by
      simpa using hc
    unfold countDefaults at *
    rw [List.countP_append]
    simp [List.countP_cons, hflag]
    omega

theorem countDefaults_afterPut_le (addrs : List Address) (id : Nat)
    (u : AddressUpdates) (h : countDefaults addrs ≤ 1) :
    countDefaults (addressesAfterPut addrs id u) ≤ 1 := by
  unfold addressesAfterPut
  by_cases hdef : u.isDefault = some true
  · rw [if_pos hdef]
    exact countDefaults_set_le_one _ _ _ (countDefaults_clearDefaults addrs)
  · rw [if_neg hdef]
    apply countDefaults_set_le _ _ _ h
    intro hnew
    cases hu : u.isDefault with
    | none => simpa [applyAddressUpdates, hu] using hnew
    | some bv =>
      cases bv with
      | false =>
        rw [applyAddressUpdates] at hnew
        simp [hu] at hnew
      | true => exact absurd hu hdef

theorem applyAddrOp_preserves (addrs : List Address) (op : AddrOp)
    (h : countDefaults addrs ≤ 1) : countDefaults (applyAddrOp addrs op) ≤ 1 := by
  cases op with
  | add b =>
    simp only [applyAddrOp]
    by_cases hm : addressBodyMissing b = true
    · rw [if_pos hm]
      exact h
    · rw [if_neg hm]
      exact countDefaults_afterPost_le addrs b h
  | update id u =>
    simp only [applyAddrOp]
    by_cases hi : id < addrs.length
    · rw [if_pos hi]
      exact countDefaults_afterPut_le addrs id u h
    · rw [if_neg hi]
      exact h

theorem foldl_applyAddrOp_le (ops : List AddrOp) :
    ∀ start : List Address, countDefaults start ≤ 1 →
      countDefaults (ops.foldl applyAddrOp start) ≤ 1 := by
  induction ops with
  | nil => intro start h; simpa using h
  | cons op rest ih => intro start h; exact ih _ (applyAddrOp_preserves start op h)

/-- C2: starting from the empty address list, any sequence of
`POST /api/addresses` and `PUT /api/addresses/:id` requests leaves at most
one address with `isDefault = true`; moreover an add with `isDefault` set
(or an add to an empty list) leaves every pre-existing address non-default,
and an update with `isDefault` truthy leaves every other index
non-default. -/
theorem addresses_at_most_one_default :
    (∀ ops : List AddrOp, countDefaults (applyAddrOps ops) ≤ 1) ∧
    (∀ (addrs : List Address) (b : AddressBody),
      (b.isDefault = true ∨ addrs = []) →
      ∀ a ∈ (addressesAfterPost addrs b).dropLast, a.isDefault = false) ∧
    (∀ (addrs : List Address) (id : Nat) (u : AddressUpdates),
      u.isDefault = some true →
      ∀ j, j < (addressesAfterPut addrs id u).length → j ≠ id →
        ((addressesAfterPut addrs id u).getD j default).isDefault = false) := by
  refine ⟨?_, ?_, ?_⟩
  · intro ops
    exact foldl_applyAddrOp_le ops [] (by simp [countDefaults])
  · intro addrs b hcond a ha
    have hc : (b.isDefault || addrs.isEmpty) = true := by
      rcases hcond with h | h
      · simp [h]
      · simp [h]
    unfold addressesAfterPost at ha
    rw [if_pos hc, List.dropLast_concat] at ha
    exact mem_clearDefaults_isDefault ha
  · intro addrs id u hu j hj hne
    unfold addressesAfterPut at hj ⊢
    rw [if_pos hu] at hj ⊢
    rw [List.getD_eq_getElem?_getD, List.getElem?_set_ne (Ne.symm hne)]
    have hj' : j < (clearDefaults addrs).length := by
      simpa using hj
    rw [List.getElem?_eq_getElem hj']
    exact mem_clearDefaults_isDefault (List.getElem_mem hj')

/-- Witness for C2 at concrete inputs: an add of a default address followed
by an update that re-defaults index 0 keeps the count at most 1, and both
clearing clauses hold at index/list instances. -/
theorem addresses_at_most_one_default_witness :
    countDefaults (applyAddrOps
      [AddrOp.add ⟨"A", "9999999999", "Lane", "C", "S", "110001", true⟩,
       AddrOp.update 0 { isDefault := some true }]) ≤ 1 ∧
    (Address.mk "B" "8" "L" "C" "S" "1" false).isDefault = false ∧
    ((addressesAfterPut [⟨"B", "8", "L", "C", "S", "1", true⟩,
        ⟨"D", "7", "L", "C", "S", "2", false⟩] 0
        { isDefault := some true }).getD 1 default).isDefault = false :=
  ⟨addresses_at_most_one_default.1 _,
   addresses_at_most_one_default.2.1 [⟨"B", "8", "L", "C", "S", "1", true⟩]
     ⟨"N", "7", "L2", "C2", "S2", "2", true⟩ (Or.inl rfl) _ (by decide),
   addresses_at_most_one_default.2.2 _ 0 _ rfl 1 (by decide) (by decide)⟩

theorem setQuantityFirst_quantity_ge (name : String) (q : Int) (hq : 1 ≤ q) :
    ∀ cart : List CartItem, (∀ i ∈ cart, 1 ≤ i.quantity) →
      ∀ i ∈ setQuantityFirst cart name q, 1 ≤ i.quantity := by
  intro cart
  induction cart with
  | nil =>
    intro _ i hi
    simp [setQuantityFirst] at hi
  | cons head rest ih =>
    intro h i hi
    rw [setQuantityFirst] at hi
    by_cases hn : head.name = name
    · rw [if_pos hn] at hi
      rcases List.mem_cons.mp hi with rfl | hmem
      · exact hq
      · exact h i (List.mem_cons_of_mem _ hmem)
    · rw [if_neg hn] at hi
      rcases List.mem_cons.mp hi with rfl | hmem
      · exact h _ (List.mem_cons_self _ _)
      · exact ih (fun j hj => h j (List.mem_cons_of_mem _ hj)) i hmem

theorem cartAfterUpdate_quantity_ge (cart : List CartItem) (name : String)
    (q : Int) (hq : q = 0 ∨ 1 ≤ q) (h : ∀ i ∈ cart, 1 ≤ i.quantity) :
    ∀ i ∈ cartAfterUpdate cart name q, 1 ≤ i.quantity := by
  unfold cartAfterUpdate
  rcases hq with rfl | hq1
  · rw [if_pos rfl]
    intro i hi
    exact h i (List.mem_filter.mp hi).1
  · rw [if_neg (by omega)]
    exact setQuantityFirst_quantity_ge name q hq1 cart h

theorem addToCartList_quantity_ge (name : String) (price : Rat) (image : String) :
    ∀ cart : List CartItem, (∀ i ∈ cart, 1 ≤ i.quantity) →
      ∀ i ∈ addToCartList cart name price image, 1 ≤ i.quantity := by
  intro cart
  induction cart with
  | nil =>
    intro _ i hi
    rw [addToCartList] at hi
    rw [List.mem_singleton.mp hi]
  | cons head rest ih =>
    intro h i hi
    rw [addToCartList] at hi
    by_cases hn : head.name = name
    · rw [if_pos hn] at hi
      rcases List.mem_cons.mp hi with rfl | hmem
      · have hh := h head (List.mem_cons_self _ _)
        show 1 ≤ head.quantity + 1
        omega
      · exact h i (List.mem_cons_of_mem _ hmem)
    · rw [if_neg hn] at hi
      rcases List.mem_cons.mp hi with rfl | hmem
      · exact h _ (List.mem_cons_self _ _)
      · exact ih (fun j hj => h j (List.mem_cons_of_mem _ hj)) i hmem

theorem applyServerOp_quantity_ge (s : UserState) (op : ServerOp)
    (hop : opQuantityOK op = true) (h : ∀ i ∈ s.cart, 1 ≤ i.quantity) :
    ∀ i ∈ (applyServerOp s op).cart, 1 ≤ i.quantity := by
  cases op with
  | cartAdd name price image =>
    simp only [applyServerOp, postCartAdd]
    by_cases hc : name = "" ∨ price = 0
    · rw [if_pos hc]
      exact h
    · rw [if_neg hc]
      exact addToCartList_quantity_ge name price image s.cart h
  | cartUpdate name q =>
    have hq : q = 0 ∨ 1 ≤ q := by
      simp only [opQuantityOK, Bool.or_eq_true, beq_iff_eq, decide_eq_true_eq] at hop
      exact hop
    exact cartAfterUpdate_quantity_ge s.cart name q hq h
  | cartRemove name =>
    intro i hi
    exact h i (List.mem_filter.mp hi).1
  | cartClear =>
    intro i hi
    simp [applyServerOp, deleteCartClear] at hi
  | orderCreate b oid now =>
    simp only [applyServerOp, postOrders]
    by_cases he : s.cart.isEmpty = true
    · rw [if_pos he]
      exact h
    · rw [if_neg he]
      intro i hi
      simp at hi
  | addressAdd b =>
    simp only [applyServerOp, postAddresses]
    by_cases hm : addressBodyMissing b = true
    · rw [if_pos hm]
      exact h
    · rw [if_neg hm]
      exact h
  | addressUpdate id u =>
    simp only [applyServerOp, putAddressId]
    by_cases hi : id < s.addresses.length
    · rw [if_pos hi]
      exact h
    · rw [if_neg hi]
      exact h
  | addressDelete id =>
    exact h

theorem foldl_applyServerOp_quantity_ge (ops : List ServerOp) :
    ∀ s : UserState, (∀ op ∈ ops, opQuantityOK op = true) →
      (∀ i ∈ s.cart, 1 ≤ i.quantity) →
      ∀ i ∈ (ops.foldl applyServerOp s).cart, 1 ≤ i.quantity := by
  induction ops with
  | nil =>
    intro s _ h
    exact h
  | cons op rest ih =>
    intro s hops h
    exact ih _ (fun o ho => hops o (List.mem_cons_of_mem _ ho))
      (applyServerOp_quantity_ge s op (hops op (List.mem_cons_self _ _)) h)

/-- C3, counterexample: `PUT /api/cart/update` stores any nonzero requested
quantity verbatim, so the request `{name: "pill", quantity: -1}` leaves the
item in the cart with quantity -1, which is below 1. -/
theorem cart_update_stores_negative_quantity :
    (putCartUpdate { cart := [⟨"pill", 10, 2, "i"⟩], orders := [], addresses := [] }
      "pill" (-1)).1.cart = [⟨"pill", 10, -1, "i"⟩] ∧ ((-1 : Int) < 1) :=
  ⟨rfl, by decide⟩

/-- C3, amended: the client `updateCartItemQuantity` clamps every requested
quantity with `Math.max(1, quantity)`, so both its guest branch and its
authenticated branch preserve `quantity ≥ 1` for any requested value; and
the server cart, starting from a fresh user, keeps every quantity ≥ 1 under
any sequence of cart/order/address requests whose cart updates only carry
quantity 0 (removal) or ≥ 1 — which is all the repository's client ever
sends. -/
theorem cart_quantities_ge_one_amended :
    (∀ (cart : List CartItem) (name : String) (q : Int),
      (∀ i ∈ cart, 1 ≤ i.quantity) →
      (∀ i ∈ updateCartItemQuantityGuest cart name q, 1 ≤ i.quantity) ∧
      (∀ i ∈ updateCartItemQuantityAuth cart name q, 1 ≤ i.quantity)) ∧
    (∀ ops : List ServerOp, (∀ op ∈ ops, opQuantityOK op = true) →
      ∀ i ∈ (ops.foldl applyServerOp initialUser).cart, 1 ≤ i.quantity) := by
  constructor
  · intro cart name q h
    constructor
    · exact setQuantityFirst_quantity_ge name (max 1 q) (le_max_left 1 q) cart h
    · exact cartAfterUpdate_quantity_ge cart name (max 1 q)
        (Or.inr (le_max_left 1 q)) h
  · intro ops hops
    exact foldl_applyServerOp_quantity_ge ops initialUser hops
      (by simp [initialUser])

/-- Witness for the amended C3 at concrete inputs: a guest update requesting
quantity -7 stores quantity 1, and the server cart after an add followed by
an update to quantity 3 holds quantity 3. -/
theorem cart_quantities_ge_one_amended_witness :
    1 ≤ (CartItem.mk "a" 5 1 "x").quantity ∧
    1 ≤ (CartItem.mk "b" 7 3 "y").quantity :=
  ⟨(cart_quantities_ge_one_amended.1 [⟨"a", 5, 2, "x"⟩] "a" (-7)
      (by decide)).1 ⟨"a", 5, 1, "x"⟩ (by decide),
   cart_quantities_ge_one_amended.2
     [ServerOp.cartAdd "b" 7 "y", ServerOp.cartUpdate "b" 3]
     (by decide) ⟨"b", 7, 3, "y"⟩ (by decide)⟩

theorem setQuantityFirst_eq_of_absent (name : String) (q : Int) :
    ∀ cart : List CartItem, (∀ i ∈ cart, i.name ≠ name) →
      setQuantityFirst cart name q = cart := by
  intro cart
  induction cart with
  | nil => intro _; rfl
  | cons head rest ih =>
    intro h
    rw [setQuantityFirst,
      if_neg (h head (List.mem_cons_self _ _)),
      ih (fun j hj => h j (List.mem_cons_of_mem _ hj))]

/-- C4: stored orders are immutable.  Every request handler preserves each
order already in the user document (mutating only the cart or the addresses,
or appending a new order), and a successful `POST /api/orders` appends an
order whose `items` are the cart at purchase time. -/
theorem orders_immutable :
    (∀ (s : UserState) (op : ServerOp), ∀ o ∈ s.orders,
      o ∈ (applyServerOp s op).orders) ∧
    (∀ (s : UserState) (b : OrderBody) (oid : String) (now : Nat),
      s.cart ≠ [] →
      ∃ s' ord, postOrders s b oid now = Except.ok (s', ord) ∧
        ord.items = s.cart ∧ s'.orders = s.orders ++ [ord]) := by
  constructor
  · intro s op o ho
    cases op with
    | cartAdd name price image =>
      simp only [applyServerOp, postCartAdd]
      by_cases hc : name = "" ∨ price = 0
      · rw [if_pos hc]
        exact ho
      · rw [if_neg hc]
        exact ho
    | cartUpdate name q => exact ho
    | cartRemove name => exact ho
    | cartClear => exact ho
    | orderCreate b oid now =>
      simp only [applyServerOp, postOrders]
      by_cases he : s.cart.isEmpty = true
      · rw [if_pos he]
        exact ho
      · rw [if_neg he]
        exact List.mem_append_left _ ho
    | addressAdd b =>
      simp only [applyServerOp, postAddresses]
      by_cases hm : addressBodyMissing b = true
      · rw [if_pos hm]
        exact ho
      · rw [if_neg hm]
        exact ho
    | addressUpdate id u =>
      simp only [applyServerOp, putAddressId]
      by_cases hi : id < s.addresses.length
      · rw [if_pos hi]
        exact ho
      · rw [if_neg hi]
        exact ho
    | addressDelete id => exact ho
  · intro s b oid now h
    have he : s.cart.isEmpty = false := by
      cases hc : s.cart with
      | nil => exact absurd hc h
      | cons a l => rfl
    cases hres : postOrders s b oid now with
    | error e =>
      unfold postOrders at hres
      rw [if_neg (by simp [he])] at hres
      exact Except.noConfusion hres
    | ok p =>
      obtain ⟨s', ord⟩ := p
      have hres2 := hres
      unfold postOrders at hres2
      rw [if_neg (by simp [he])] at hres2
      simp only [Except.ok.injEq, Prod.mk.injEq] at hres2
      obtain ⟨hs', hord⟩ := hres2
      exact ⟨s', ord, rfl, by rw [← hord], by rw [← hs', ← hord]⟩

/-- Witness for C4: a stored order survives a cart clear, and a concrete
order creation snapshots the one-item cart. -/
theorem orders_immutable_witness :
    (Order.mk "ORD-1" [] 0 none "cod" none "pending" "confirmed" 0) ∈
      (applyServerOp ⟨[⟨"p", 5, 1, "i"⟩],
        [Order.mk "ORD-1" [] 0 none "cod" none "pending" "confirmed" 0], []⟩
        ServerOp.cartClear).orders ∧
    (∃ s' ord, postOrders ⟨[⟨"p", 5, 1, "i"⟩], [], []⟩ {} "ORD-2" 5 =
        Except.ok (s', ord) ∧
      ord.items = [⟨"p", 5, 1, "i"⟩] ∧ s'.orders = [] ++ [ord]) :=
  ⟨orders_immutable.1 _ ServerOp.cartClear _ (by decide),
   orders_immutable.2 ⟨[⟨"p", 5, 1, "i"⟩], [], []⟩ {} "ORD-2" 5 (by decide)⟩

/-- C9: a successful `POST /api/orders` empties the cart in the same save,
and an immediate second `POST /api/orders` fails with 400 "Cart is empty". -/
theorem order_creation_empties_cart (s : UserState) (b b2 : OrderBody)
    (oid oid2 : String) (now now2 : Nat) (h : s.cart ≠ []) :
    ∃ s' ord, postOrders s b oid now = Except.ok (s', ord) ∧ s'.cart = [] ∧
      postOrders s' b2 oid2 now2 = Except.error (400, "Cart is empty") := by
  have he : s.cart.isEmpty = false := by
    cases hc : s.cart with
    | nil => exact absurd hc h
    | cons a l => rfl
  cases hres : postOrders s b oid now with
  | error e =>
    unfold postOrders at hres
    rw [if_neg (by simp [he])] at hres
    exact Except.noConfusion hres
  | ok p =>
    obtain ⟨s', ord⟩ := p
    have hres2 := hres
    unfold postOrders at hres2
    rw [if_neg (by simp [he])] at hres2
    simp only [Except.ok.injEq, Prod.mk.injEq] at hres2
    obtain ⟨hs', hord⟩ := hres2
    have hcart : s'.cart = [] := by rw [← hs']
    refine ⟨s', ord, rfl, hcart, ?_⟩
    unfold postOrders
    rw [hcart]
    simp

/-- Witness for C9 at a one-item cart. -/
theorem order_creation_empties_cart_witness :
    ∃ s' ord, postOrders ⟨[⟨"p", 5, 1, "i"⟩], [], []⟩ {} "O1" 1 =
        Except.ok (s', ord) ∧ s'.cart = [] ∧
      postOrders s' {} "O2" 2 = Except.error (400, "Cart is empty") :=
  order_creation_empties_cart ⟨[⟨"p", 5, 1, "i"⟩], [], []⟩ {} {} "O1" "O2" 1 2
    (by decide)

/-- C10: a `PUT /api/cart/update` with quantity 0 removes every item with
the requested name and keeps every other item, and an update naming a
product not in the cart (with any nonzero quantity) succeeds and leaves the
whole response state unchanged. -/
theorem cart_update_zero_and_absent :
    (∀ (cart : List CartItem) (name : String),
      ∀ i ∈ cartAfterUpdate cart name 0, i.name ≠ name) ∧
    (∀ (cart : List CartItem) (name : String),
      ∀ i ∈ cart, i.name ≠ name → i ∈ cartAfterUpdate cart name 0) ∧
    (∀ (s : UserState) (name : String) (q : Int), q ≠ 0 →
      (∀ i ∈ s.cart, i.name ≠ name) →
      putCartUpdate s name q = (s, s.cart, calculateCartTotal s.cart)) := by
  refine ⟨?_, ?_, ?_⟩
  · intro cart name i hi
    unfold cartAfterUpdate at hi
    rw [if_pos rfl] at hi
    have := (List.mem_filter.mp hi).2
    simpa using this
  · intro cart name i hi hne
    unfold cartAfterUpdate
    rw [if_pos rfl]
    exact List.mem_filter.mpr ⟨hi, by simpa using hne⟩
  · intro s name q hq habs
    unfold putCartUpdate cartAfterUpdate
    rw [if_neg hq, setQuantityFirst_eq_of_absent name q s.cart habs]

/-- Witness for C10 on a two-item cart and an absent product name. -/
theorem cart_update_zero_and_absent_witness :
    (CartItem.mk "b" 6 1 "y").name ≠ "a" ∧
    (CartItem.mk "b" 6 1 "y") ∈
      cartAfterUpdate [⟨"a", 5, 1, "x"⟩, ⟨"b", 6, 1, "y"⟩] "a" 0 ∧
    putCartUpdate ⟨[⟨"b", 6, 1, "y"⟩], [], []⟩ "z" 4 =
      (⟨[⟨"b", 6, 1, "y"⟩], [], []⟩, [⟨"b", 6, 1, "y"⟩],
        calculateCartTotal [⟨"b", 6, 1, "y"⟩]) :=
  ⟨cart_update_zero_and_absent.1 [⟨"a", 5, 1, "x"⟩, ⟨"b", 6, 1, "y"⟩] "a" _
     (by decide),
   cart_update_zero_and_absent.2.1 [⟨"a", 5, 1, "x"⟩, ⟨"b", 6, 1, "y"⟩] "a" _
     (by decide) (by decide),
   cart_update_zero_and_absent.2.2 ⟨[⟨"b", 6, 1, "y"⟩], [], []⟩ "z" 4
     (by decide) (by decide)⟩

/-- C5: after a successful `handleLogin`, the in-memory cart and the cart
cache both equal the cart returned by `GET /api/cart`, regardless of the
guest cart and cache held before login — server wins, no merge. -/
theorem login_server_cart_replaces_guest_cart (s : ClientState)
    (token userName : String) (serverCart : List CartItem) :
    (handleLogin s token userName serverCart).cart = serverCart ∧
    (handleLogin s token userName serverCart).cartCache = some serverCart := by
  unfold handleLogin loadCart authSetUser authSetToken
  simp

/-- C6: a 401 or 403 response makes `apiCall` run `auth.logout()`, which
removes the stored token, user and cart cache; on the server, a request with
no bearer token is answered 401 and one whose token fails verification is
answered 403. -/
theorem auth_failures_force_logout :
    (∀ (s : ClientState) (m : String),
      apiCallHandleResponse s 401 m = (authLogout s, ApiOutcome.loggedOut) ∧
      apiCallHandleResponse s 403 m = (authLogout s, ApiOutcome.loggedOut) ∧
      (authLogout s).token = none ∧ (authLogout s).user = none ∧
      (authLogout s).cartCache = none) ∧
    (∀ (verify : String → Option String) (userExists : String → Bool),
      authenticateToken verify userExists none =
        AuthResult.denied 401 "Authentication required") ∧
    (∀ (verify : String → Option String) (userExists : String → Bool)
      (t : String), verify t = none →
      authenticateToken verify userExists (some t) =
        AuthResult.denied 403 "Invalid or expired token") := by
  refine ⟨?_, ?_, ?_⟩
  · intro s m
    refine ⟨?_, ?_, rfl, rfl, rfl⟩
    · unfold apiCallHandleResponse
      rw [if_neg (by omega), if_pos (by omega)]
    · unfold apiCallHandleResponse
      rw [if_neg (by omega), if_pos (by omega)]
  · intro verify userExists
    rfl
  · intro verify userExists t hv
    have hred : authenticateToken verify userExists (some t) =
        (match verify t with
         | none => AuthResult.denied 403 "Invalid or expired token"
         | some uid =>
           if userExists uid = true then AuthResult.authorized uid
           else AuthResult.denied 401 "User not found") := rfl
    rw [hred, hv]

/-- Witness for C6: a verifier that rejects every token yields 403 at a
concrete token. -/
theorem auth_failures_force_logout_witness :
    authenticateToken (fun _ => none) (fun _ => true) (some "tok") =
      AuthResult.denied 403 "Invalid or expired token" :=
  auth_failures_force_logout.2.2 (fun _ => none) (fun _ => true) "tok" rfl

/-- C7, counterexample: the server `POST /api/addresses` handler checks only
that the fields are present, so a 3-digit phone (and 2-digit pincode) is
accepted and stored instead of being rejected with 400. -/
theorem server_stores_invalid_phone :
    postAddresses ⟨[], [], []⟩ ⟨"A", "123", "Lane", "City", "St", "56", false⟩ =
      Except.ok (⟨[], [], [⟨"A", "123", "Lane", "City", "St", "56", true⟩]⟩,
        ⟨"A", "123", "Lane", "City", "St", "56", true⟩) ∧
    ¬ matchesDigits (stripSpaces "123") 10 = true :=
  ⟨rfl, by decide⟩

/-- C7, amended: the 10-digit phone / 6-digit pincode validation happens
only in the browser: the client `addAddress` returns `null` before issuing
any request (leaving the stored list unchanged), while the server rejects
with 400 exactly when a required field is missing and otherwise stores the
address whatever its digits. -/
theorem address_validation_client_only :
    (∀ d : AddressBody,
      (¬ matchesDigits (stripSpaces d.phone) 10 = true ∨
       ¬ matchesDigits (stripSpaces d.pincode) 6 = true) →
      addAddressClientPayload d = none) ∧
    (∀ (s : UserState) (b : AddressBody),
      (∃ e, postAddresses s b = Except.error e) ↔ addressBodyMissing b = true) := by
  constructor
  · intro d hd
    unfold addAddressClientPayload
    split
    · rfl
    · split
      · rfl
      · split
        · rfl
        · rename_i h2 h3
          rcases hd with hd | hd
          · exact absurd hd h2
          · exact absurd hd h3
  · intro s b
    unfold postAddresses
    by_cases hm : addressBodyMissing b = true
    · rw [if_pos hm]
      exact ⟨fun _ => hm, fun _ => ⟨(400, "All address fields required"), rfl⟩⟩
    · rw [if_neg hm]
      exact ⟨fun ⟨e, he⟩ => Except.noConfusion he, fun hmm => absurd hmm hm⟩

/-- Witness for the amended C7: the client rejects a 3-digit phone. -/
theorem address_validation_client_only_witness :
    addAddressClientPayload ⟨"A", "123", "Lane", "City", "St", "560001", false⟩
      = none :=
  address_validation_client_only.1 _ (Or.inl (by decide))
